import Mathlib

/-!
Shallow embedding of the FPLUser repository (src/data_loader.py and
src/00_⚽_fpl.py): a Streamlit dashboard that fetches Fantasy Premier League
data over HTTP, reshapes the JSON responses into pandas DataFrames, and
renders tables and charts.

The embedding models JSON records and pandas DataFrames as association-list
rows plus an ordered column list, the three fetch functions as functions
from an upstream HTTP outcome to `Except FetchError DataFrame`, the column
shaping in `main` as pure table transformations, and the Streamlit session
as a function from the entered team id and the upstream environment to the
rendered outcome (fetch calls made, messages shown, tables displayed).
Python exceptions become `Except` values; pandas missing cells (NaN/NaT)
become an explicit `Value.null`.
-/

namespace FPL

/-- A cell value: JSON integers and strings, a parsed datetime
(`pd.to_datetime` output, encoded by a chronologically ordered integer code),
and the missing-value marker (pandas NaN / NaT). -/
inductive Value where
  | int : Int → Value
  | str : String → Value
  | dt : Int → Value
  | null : Value
deriving DecidableEq, Repr

/-- A JSON record / DataFrame row: field name to value, as an association
list. Reading an absent field yields `Value.null` (pandas NaN). -/
abbrev Row := List (String × Value)

/-- Read a cell of a row; a missing field reads as null, as in a pandas
DataFrame where rows missing a key hold NaN in that column. -/
def Row.cell (r : Row) (c : String) : Value :=
  match r.lookup c with
  | some v => v
  | none => Value.null

/-- A pandas DataFrame: an ordered list of column labels and the rows. -/
structure DataFrame where
  columns : List String
  rows : List Row
deriving DecidableEq, Repr

/-- Pandas `DataFrame.empty`: true when there are no rows or no columns. -/
def DataFrame.emptyDF (df : DataFrame) : Bool :=
  df.rows.isEmpty || df.columns.isEmpty

/-- Append a label to a column list unless already present (pandas keeps an
existing column in place and appends a brand-new one at the end). -/
def insertNew (cols : List String) (c : String) : List String :=
  if cols.contains c then cols else cols ++ [c]

/-- Column order of `pd.json_normalize`: union of the record keys in order of
first appearance. -/
def normalizeColumns (records : List Row) : List String :=
  records.foldl (fun acc r => (r.map Prod.fst).foldl insertNew acc) []

/-- Model of `pd.json_normalize`: a list of JSON records becomes a DataFrame whose
columns are the union of the record keys; a record without some key reads as
null in that column (`Row.cell`). -/
def json_normalize (records : List Row) : DataFrame :=
  { columns := normalizeColumns records, rows := records }

/-- Rebind field `c` of a row to `v` (column assignment on one row). -/
def setRow (r : Row) (c : String) (v : Value) : Row :=
  (r.filter (fun p => !(p.1 == c))) ++ [(c, v)]

/-- Column assignment `df[c] = f(row)`: every row gets `c` bound to the new
value; a brand-new column label is appended to the column list. -/
def DataFrame.setColumn (df : DataFrame) (c : String) (f : Row → Value) : DataFrame :=
  { columns := insertNew df.columns c,
    rows := df.rows.map (fun r => setRow r c (f r)) }

/-- Column conversion `df[c] = g(df[c])` for a total cell function `g`. -/
def DataFrame.mapColumn (df : DataFrame) (c : String) (g : Value → Value) : DataFrame :=
  df.setColumn c (fun r => g (Row.cell r c))

/-- Column dropping, `df.drop(cs, axis=1)`. -/
def DataFrame.dropCols (df : DataFrame) (cs : List String) : DataFrame :=
  { columns := df.columns.filter (fun c => !(cs.contains c)),
    rows := df.rows.map (fun r => r.filter (fun p => !(cs.contains p.1))) }

/-- Column selection `df[cs]` (used in the source only with labels that are
present in the frame). -/
def DataFrame.select (df : DataFrame) (cs : List String) : DataFrame :=
  { columns := cs,
    rows := df.rows.map (fun r => cs.map (fun c => (c, Row.cell r c))) }

/-- Renaming `df.rename(columns=m)`: labels found in the mapping are replaced, all
others kept. -/
def renameFn (m : List (String × String)) (c : String) : String :=
  match m.lookup c with
  | some c' => c'
  | none => c

/-- Renaming `df.rename(columns=m)` on the whole frame. -/
def DataFrame.rename (df : DataFrame) (m : List (String × String)) : DataFrame :=
  { columns := df.columns.map (renameFn m),
    rows := df.rows.map (fun r => r.map (fun p => (renameFn m p.1, p.2))) }

/-- Strict comparison of two cell values of the same scalar kind, as pandas
compares sort keys within a homogeneous column; values of different kinds or
null markers are never strictly below anything (the sort segregates nulls
before comparing, and the source only sorts homogeneous columns). -/
def Value.vlt : Value → Value → Bool
  | .int a, .int b => decide (a < b)
  | .str a, .str b => decide (a < b)
  | .dt a, .dt b => decide (a < b)
  | _, _ => false

/-- Is this cell the missing-value marker? -/
def Value.isNull : Value → Bool
  | .null => true
  | _ => false

/-- Insert `x` into `l`, placing it before the first element that is not
strictly ordered before it; with `before` a strict by-key comparison this is
the insertion step of a stable sort. -/
def insertBefore (before : α → α → Bool) (x : α) : List α → List α
  | [] => [x]
  | y :: ys => if before y x then y :: insertBefore before x ys else x :: y :: ys

/-- Insertion sort, placing equal-key elements in input order. The source
sorts with pandas' default `kind='quicksort'` (numpy introsort), which pandas
documents as NOT stable, so the program leaves the relative order of
equal-key rows unspecified; this executable model fixes one concrete
arrangement of the ties (the stable one), and no claim theorem relies on
that tie order — only on by-key order, membership and columns. -/
def stableSort (before : α → α → Bool) : List α → List α
  | [] => []
  | x :: xs => insertBefore before x (stableSort before xs)

/-- Rows ordered ascending by column `c`: row `r` strictly precedes `s`. -/
def ascBefore (c : String) (r s : Row) : Bool :=
  Value.vlt (Row.cell r c) (Row.cell s c)

/-- Rows ordered descending by column `c`: row `r` strictly precedes `s`. -/
def descBefore (c : String) (r s : Row) : Bool :=
  Value.vlt (Row.cell s c) (Row.cell r c)

/-- The strict row comparison `sort_values` uses for the requested
direction. -/
def beforeOf (c : String) : Bool → Row → Row → Bool
  | true => ascBefore c
  | false => descBefore c

/-- Sorting `df.sort_values(by=c, ascending=asc)`: pandas `nargsort` first
segregates the rows whose key is the null marker (na_position last), sorts
the remainder by the key with the default `kind='quicksort'` — whose tie
order is unspecified (not stable) and is modelled here by one concrete
arrangement, see `stableSort` — and appends the null-keyed rows. -/
def DataFrame.sort_values (df : DataFrame) (c : String) (asc : Bool) : DataFrame :=
  { columns := df.columns,
    rows :=
      stableSort (beforeOf c asc)
          (df.rows.filter (fun r => !(Row.cell r c).isNull))
        ++ df.rows.filter (fun r => (Row.cell r c).isNull) }

/-- Model of the pandas timestamp parser on the strings the FPL API returns:
an ISO-8601 string "YYYY-MM-DDTHH:MM:SSZ" parses to the chronologically
ordered digit code YYYYMMDDHHMMSS; any other string fails to parse (pandas
raises `ValueError` / coerces to NaT, per the `errors` mode). -/
def parseTimestamp (s : String) : Option Int :=
  match s.toList with
  | [y1, y2, y3, y4, '-', m1, m2, '-', d1, d2, 'T',
     h1, h2, ':', n1, n2, ':', s1, s2, 'Z'] =>
    if [y1, y2, y3, y4, m1, m2, d1, d2, h1, h2, n1, n2, s1, s2].all Char.isDigit then
      some (([y1, y2, y3, y4, m1, m2, d1, d2, h1, h2, n1, n2, s1, s2].foldl
        (fun a ch => a * 10 + (ch.toNat - 48)) 0 : Nat) : Int)
    else none
  | _ => none

/-- Model of `pd.to_datetime` on one cell without `errors="coerce"` (as called inside
`fetch_transfers`): strings must parse or the conversion raises; integers are
taken as epoch offsets; datetimes and the NaT marker pass through. -/
def toDatetimeValue : Value → Except String Value
  | .null => .ok .null
  | .dt t => .ok (.dt t)
  | .int n => .ok (.dt n)
  | .str s =>
    match parseTimestamp s with
    | some t => .ok (.dt t)
    | none => .error ("Unknown datetime string format: " ++ s)

/-- Model of `pd.to_datetime(..., errors="coerce")` on one cell (as called in the
transfers tab of `main`): an unparseable value becomes NaT instead of
raising. -/
def toDatetimeCoerce (v : Value) : Value :=
  match toDatetimeValue v with
  | .ok w => w
  | .error _ => .null

/-- The two-tier error taxonomy of the data loader: each `RuntimeError`
raised by a fetch is either the HTTP-error rewrap or the catch-all rewrap;
both carry the human-readable message and the originating cause text. -/
inductive FetchError where
  | httpError (msg cause : String)
  | otherError (msg cause : String)
deriving DecidableEq, Repr

/-- The message a fetch error surfaces via `st.error`. -/
def errMsg : FetchError → String
  | .httpError m _ => m
  | .otherError m _ => m

/-- Message of the HTTP-error rewrap, `f'HTTP error occurred while fetching
<what>: <http_err>'`. -/
def httpMsg (what cause : String) : String :=
  "HTTP error occurred while fetching " ++ what ++ ": " ++ cause

/-- Message of the catch-all rewrap, `f'Other error occurred while fetching
<what>: <err>'`. -/
def otherMsg (what cause : String) : String :=
  "Other error occurred while fetching " ++ what ++ ": " ++ cause

/-- Text of the `requests.HTTPError` produced by `raise_for_status` (the
reason phrase is abstracted to the client/server error class). -/
def httpExcText (code : Nat) : String :=
  if code < 500 then toString code ++ " Client Error"
  else toString code ++ " Server Error"

/-- Predicate for `response.raise_for_status()`: it raises exactly for 4xx and 5xx codes. -/
def raiseForStatus (code : Nat) : Bool :=
  decide (400 ≤ code) && decide (code < 600)

/-- Outcome of one `requests.get`: either the call raised (network failure),
or a response arrived with a status code and a body that parses to the given
JSON shape or fails to parse (`response.json()` raising). -/
inductive HttpResult (α : Type) where
  | netError (cause : String)
  | response (code : Nat) (body : Except String α)

/-- One entry of the bootstrap `elements` array (the two fields read). -/
structure PlayerElem where
  id : Int
  web_name : String
deriving DecidableEq, Repr

/-- Parsed JSON body of the bootstrap endpoint; `none` models a JSON object
without an `elements` key, on which the subscript raises `KeyError`. -/
structure PlayersBody where
  elements : Option (List PlayerElem)
deriving DecidableEq, Repr

/-- The dict comprehension building id -> web_name: later duplicate ids
overwrite earlier ones, insertion order otherwise. -/
def buildDirectory (ps : List PlayerElem) : List (Int × String) :=
  ps.foldl (fun acc p => (acc.filter (fun q => !(q.1 == p.id))) ++ [(p.id, p.web_name)]) []

/-- Model of `fetch_players` of src/data_loader.py: GET bootstrap-static, raise for
status, parse JSON, build the id -> name directory; an `HTTPError` is
rewrapped as the HTTP-error `RuntimeError`, any other exception (network
failure, JSON parse failure, missing `elements` key) as the catch-all
`RuntimeError`. -/
def fetch_players (r : HttpResult PlayersBody) : Except FetchError (List (Int × String)) :=
  match r with
  | .netError e => .error (.otherError (otherMsg "players" e) e)
  | .response code body =>
    if raiseForStatus code then
      .error (.httpError (httpMsg "players" (httpExcText code)) (httpExcText code))
    else
      match body with
      | .error e => .error (.otherError (otherMsg "players" e) e)
      | .ok b =>
        match b.elements with
        | none =>
          .error (.otherError (otherMsg "players" "KeyError: elements") "KeyError: elements")
        | some ps => .ok (buildDirectory ps)

/-- The per-row body of the `time` conversion inside `fetch_transfers`:
`pd.to_datetime(df_transfers['time'])` without coercion, rebinding the cell
or propagating the parse exception. -/
def timeRowE (r : Row) : Except String Row :=
  match toDatetimeValue (Row.cell r "time") with
  | .ok v => .ok (setRow r "time" v)
  | .error e => .error e

/-- Apply a fallible row transformation to every row, stopping at the first
exception (the whole-column `pd.to_datetime` raises if any cell does). -/
def mapRowsE (f : Row → Except String Row) : List Row → Except String (List Row)
  | [] => .ok []
  | r :: rs =>
    match f r with
    | .error e => .error e
    | .ok r' =>
      match mapRowsE f rs with
      | .error e => .error e
      | .ok rs' => .ok (r' :: rs')

/-- Model of `fetch_transfers` of src/data_loader.py: GET the transfers endpoint,
raise for status, `pd.json_normalize` the JSON array, then convert the
`time` column with `pd.to_datetime` if present, else create it filled with
NaT; exceptions are rewrapped under the two-tier taxonomy. -/
def fetch_transfers (r : HttpResult (List Row)) : Except FetchError DataFrame :=
  match r with
  | .netError e => .error (.otherError (otherMsg "transfers" e) e)
  | .response code body =>
    if raiseForStatus code then
      .error (.httpError (httpMsg "transfers" (httpExcText code)) (httpExcText code))
    else
      match body with
      | .error e => .error (.otherError (otherMsg "transfers" e) e)
      | .ok records =>
        let df := json_normalize records
        if df.columns.contains "time" then
          match mapRowsE timeRowE df.rows with
          | .ok rows' => .ok { columns := df.columns, rows := rows' }
          | .error e => .error (.otherError (otherMsg "transfers" e) e)
        else
          .ok (df.setColumn "time" (fun _ => Value.null))

/-- One entry of the `past` seasons array; `none` models an entry without a
`history` key (`season.get('history', [])` defaults to the empty list). -/
structure Season where
  history : Option (List Row)
deriving DecidableEq, Repr

/-- Parsed JSON body of the history endpoint; `none` fields model missing
keys, which `history_data.get(..., [])` defaults to the empty list. -/
structure HistoryBody where
  current : Option (List Row)
  past : Option (List Season)
deriving DecidableEq, Repr

/-- The flattening inside `fetch_history`: the current-season rows followed
by the nested history rows of every past season. -/
def allHistory (b : HistoryBody) : List Row :=
  (b.current.getD []) ++ ((b.past.getD []).map (fun s => s.history.getD [])).flatten

/-- Model of `fetch_history` of src/data_loader.py: GET the history endpoint, raise
for status, flatten current and past season rows; an empty flattening yields
the empty DataFrame `pd.DataFrame()` (no error), otherwise
`pd.json_normalize`; exceptions rewrapped under the two-tier taxonomy. -/
def fetch_history (r : HttpResult HistoryBody) : Except FetchError DataFrame :=
  match r with
  | .netError e => .error (.otherError (otherMsg "history" e) e)
  | .response code body =>
    if raiseForStatus code then
      .error (.httpError (httpMsg "history" (httpExcText code)) (httpExcText code))
    else
      match body with
      | .error e => .error (.otherError (otherMsg "history" e) e)
      | .ok b =>
        if (allHistory b).isEmpty then .ok { columns := [], rows := [] }
        else .ok (json_normalize (allHistory b))

/-- The warnings `main` can emit while shaping, with the missing-column
payloads kept structured (the Python code interpolates a `set` into the
warning text; the payload here is the missing labels in desired order). -/
inductive Warning where
  | missingIdColumns
  | missingColumns (cols : List String)
  | missingHistoryColumns (cols : List String)
deriving DecidableEq, Repr

/-- Model of `.map(player_id_to_name)` on one player-id cell: dictionary lookup,
absent keys (and non-integer cells) become NaN. -/
def dictGet (dir : List (Int × String)) (v : Value) : Value :=
  match v with
  | .int i =>
    match dir.lookup i with
    | some n => .str n
    | none => .null
  | _ => .null

/-- Desired transfers display columns (the `desired_columns` literal). -/
def desired_columns : List String :=
  ["Player In", "Player Out", "entry", "event", "time"]

/-- The transfers rename mapping passed to `df.rename`. -/
def transfersRenameMap : List (String × String) :=
  [("entry", "Team ID"), ("event", "Gameweek"), ("time", "Transfer Time")]

/-- Step 1 of the transfers tab: when both raw id columns are present, add
the looked-up `Player In` / `Player Out` name columns, else warn. -/
def transfersAddNames (dir : List (Int × String)) (df : DataFrame) :
    DataFrame × List Warning :=
  if df.columns.contains "element_in" && df.columns.contains "element_out" then
    (((df.setColumn "Player In" (fun r => dictGet dir (Row.cell r "element_in"))).setColumn
        "Player Out" (fun r => dictGet dir (Row.cell r "element_out"))), [])
  else (df, [Warning.missingIdColumns])

/-- Step 2 of the transfers tab: drop the raw id columns if both exist. -/
def transfersDropIds (df : DataFrame) : DataFrame :=
  if df.columns.contains "element_in" && df.columns.contains "element_out" then
    df.dropCols ["element_in", "element_out"]
  else df

/-- The `available_columns` list: the desired transfers columns present in the frame,
in desired order. -/
def transfersAvailable (df : DataFrame) : List String :=
  desired_columns.filter (fun c => df.columns.contains c)

/-- The `missing_columns` set: the desired transfers columns absent from the frame
(the Python set, listed here in desired order). -/
def transfersMissing (df : DataFrame) : List String :=
  desired_columns.filter (fun c => !(df.columns.contains c))

/-- The frame after name mapping and id dropping, on which the presence
check of the desired transfers columns runs. -/
def transfersWorking (dir : List (Int × String)) (df0 : DataFrame) : DataFrame :=
  transfersDropIds (transfersAddNames dir df0).1

/-- The frame after `transfers_data[available_columns]` and the rename to
display labels. -/
def transfersSelected (dir : List (Int × String)) (df0 : DataFrame) : DataFrame :=
  ((transfersWorking dir df0).select
    (transfersAvailable (transfersWorking dir df0))).rename transfersRenameMap

/-- The transfers tab shaping up to (but not including) the final sort: name
mapping, id dropping, presence-checked column selection with a warning for
the missing subset, renaming to display labels, and the coercing
`pd.to_datetime` on `Transfer Time` when present. Total: no step raises. -/
def shapeTransfersUnsorted (dir : List (Int × String)) (df0 : DataFrame) :
    DataFrame × List Warning :=
  (if (transfersSelected dir df0).columns.contains "Transfer Time" then
     (transfersSelected dir df0).mapColumn "Transfer Time" toDatetimeCoerce
   else transfersSelected dir df0,
   (transfersAddNames dir df0).2 ++
     (if (transfersMissing (transfersWorking dir df0)).isEmpty then []
      else [Warning.missingColumns (transfersMissing (transfersWorking dir df0))]))

/-- The whole transfers tab shaping: the unsorted pipeline followed by the
descending sort on `Transfer Time` when that column exists. -/
def shapeTransfers (dir : List (Int × String)) (df0 : DataFrame) :
    DataFrame × List Warning :=
  (if (shapeTransfersUnsorted dir df0).1.columns.contains "Transfer Time" then
     (shapeTransfersUnsorted dir df0).1.sort_values "Transfer Time" false
   else (shapeTransfersUnsorted dir df0).1,
   (shapeTransfersUnsorted dir df0).2)

/-- The history rename pairs, in the order of the presence checks of `main`. -/
def historyRenamePairs : List (String × String) :=
  [("season_name", "Season"), ("overall_rank", "Overall Rank"), ("rank", "Rank"),
   ("total_points", "Total Points"), ("bank", "Bank"), ("points", "Points"),
   ("event_transfers", "Transfers"), ("event_transfers_cost", "Transfers Cost"),
   ("points_on_bench", "Bench Points"), ("event", "Gameweek")]

/-- Desired history display columns (the `desired_history_columns` literal). -/
def desired_history_columns : List String :=
  ["Gameweek", "Overall Rank", "Rank", "Points", "Total Points", "Bank",
   "Transfers", "Transfers Cost", "Bench Points"]

/-- The `available_history_columns` list after renaming. -/
def historyAvailable (df : DataFrame) : List String :=
  desired_history_columns.filter (fun c => df.columns.contains c)

/-- The `missing_history_columns` set after renaming (in desired order). -/
def historyMissing (df : DataFrame) : List String :=
  desired_history_columns.filter (fun c => !(df.columns.contains c))

/-- The frame after the presence-conditional rename of raw history fields to
display labels. -/
def historyRenamed (df0 : DataFrame) : DataFrame :=
  df0.rename (historyRenamePairs.filter (fun p => df0.columns.contains p.1))

/-- The history tab shaping up to (but not including) the final sort:
presence-conditional renaming to display labels, then presence-checked
column selection with a warning for the missing subset. Total: no step
raises. -/
def shapeHistoryUnsorted (df0 : DataFrame) : DataFrame × List Warning :=
  ((historyRenamed df0).select (historyAvailable (historyRenamed df0)),
   if (historyMissing (historyRenamed df0)).isEmpty then []
   else [Warning.missingHistoryColumns (historyMissing (historyRenamed df0))])

/-- The whole history tab shaping: the unsorted pipeline followed by the
ascending sort on `Gameweek` when that column exists. -/
def shapeHistory (df0 : DataFrame) : DataFrame × List Warning :=
  (if (shapeHistoryUnsorted df0).1.columns.contains "Gameweek" then
     (shapeHistoryUnsorted df0).1.sort_values "Gameweek" true
   else (shapeHistoryUnsorted df0).1,
   (shapeHistoryUnsorted df0).2)

/-- First-appearance deduplication of a value list (`Series.unique`). -/
def uniques : List Value → List Value
  | [] => []
  | v :: vs => v :: uniques (vs.filter (fun x => !(decide (x = v))))
termination_by l => l.length
decreasing_by
  exact Nat.lt_succ_of_le (List.length_filter_le _ _)

/-- Model of `Series.value_counts()`: the distinct non-null values (the
default `dropna=True` excludes NaN keys, as produced by failed directory
lookups) with their occurrence counts, ordered by count descending; the
order among equal counts is unspecified in pandas (unstable default sort)
and modelled by one concrete arrangement, see `stableSort`. -/
def valueCounts (l : List Value) : List (Value × Nat) :=
  stableSort (fun a b => decide (b.2 < a.2))
    ((uniques (l.filter (fun x => !x.isNull))).map
      (fun v => (v, l.countP (fun x => decide (x = v)))))

/-- The outer merge of the in-counts and out-counts on the player name,
`fillna(0)` applied: left (transfers-in) entries in order, each paired with
its out-count or 0, then the out-only entries in order with in-count 0. -/
def playersSummary (ins outs : List Value) : List (Value × Nat × Nat) :=
  let ci := valueCounts ins
  let co := valueCounts outs
  ci.map (fun p => (p.1, p.2, (((co.find? (fun q => q.1 = p.1)).map (fun q => q.2)).getD 0)))
    ++ (co.filter (fun q => !(ci.any (fun p => p.1 = q.1)))).map (fun q => (q.1, 0, q.2))

/-- The chart slice
`players_summary.sort_values(by='Transfers In', ascending=False).head(10)`:
descending sort on the in-count, first ten kept; the order of entries whose
in-counts tie at the cutoff is unspecified in the program (unstable default
quicksort) and modelled by one concrete arrangement, see `stableSort`. -/
def topPlayers (s : List (Value × Nat × Nat)) : List (Value × Nat × Nat) :=
  (stableSort (fun a b => decide (b.2.1 < a.2.1)) s).take 10

/-- Find the (unique) summary entry for a player name. -/
def summaryLookup (s : List (Value × Nat × Nat)) (v : Value) : Option (Nat × Nat) :=
  (s.find? (fun p => p.1 = v)).map (fun p => p.2)

/-- Model of `plot_players_in_out` of src/00_⚽_fpl.py, modelled up to the data handed
to the grouped bar chart: when both name columns exist, the top-10-by-
transfers-in slice of the merged in/out count summary; otherwise the warning
path draws nothing (`none`). -/
def plot_players_in_out (df : DataFrame) : Option (List (Value × Nat × Nat)) :=
  if df.columns.contains "Player In" && df.columns.contains "Player Out" then
    some (topPlayers (playersSummary
      (df.rows.map (fun r => Row.cell r "Player In"))
      (df.rows.map (fun r => Row.cell r "Player Out"))))
  else none

/-- Python `str.isdigit` restricted to the ASCII identifiers at issue:
non-empty and all characters digits. -/
def str_isdigit (s : String) : Bool :=
  !s.isEmpty && s.toList.all Char.isDigit

/-- Which of the three fetches a session run invoked, in order. -/
inductive FetchCall where
  | players
  | transfers
  | history
deriving DecidableEq, Repr

/-- The upstream environment one submission runs against: the outcome each
of the three GET requests would produce. -/
structure Env where
  playersResp : HttpResult PlayersBody
  transfersResp : HttpResult (List Row)
  historyResp : HttpResult HistoryBody

/-- What one tab of the dashboard rendered: the fetch it attempted, the
`st.error` / `st.info` messages it showed, the shaping warnings, and the
displayed table if any. -/
structure TabOut where
  calls : List FetchCall
  errors : List String
  infos : List String
  warns : List Warning
  table : Option DataFrame

/-- The Transfer History tab of `main`: fetch, on failure show the error
(and then, `transfers_data` being None, the no-data info); on an empty frame
show the no-data info; otherwise shape and display. -/
def transfersTab (dir : List (Int × String)) (resp : HttpResult (List Row)) : TabOut :=
  match fetch_transfers resp with
  | .error e =>
    { calls := [.transfers], errors := [errMsg e],
      infos := ["No transfer data available for this Team ID."],
      warns := [], table := none }
  | .ok df =>
    if df.emptyDF then
      { calls := [.transfers], errors := [],
        infos := ["No transfer data available for this Team ID."],
        warns := [], table := none }
    else
      { calls := [.transfers], errors := [], infos := [],
        warns := (shapeTransfers dir df).2, table := some (shapeTransfers dir df).1 }

/-- The Performance History tab of `main`: fetch, on failure show the error
(and then the no-data info); on an empty frame show the no-data info;
otherwise shape and display. -/
def historyTab (resp : HttpResult HistoryBody) : TabOut :=
  match fetch_history resp with
  | .error e =>
    { calls := [.history], errors := [errMsg e],
      infos := ["No performance history data available for this Team ID."],
      warns := [], table := none }
  | .ok df =>
    if df.emptyDF then
      { calls := [.history], errors := [],
        infos := ["No performance history data available for this Team ID."],
        warns := [], table := none }
    else
      { calls := [.history], errors := [], infos := [],
        warns := (shapeHistory df).2, table := some (shapeHistory df).1 }

/-- What one submission rendered overall. -/
structure RenderOutcome where
  calls : List FetchCall
  errors : List String
  infos : List String
  tabsRendered : Bool
  transfersOut : Option TabOut
  historyOut : Option TabOut

/-- The per-submission control flow of `main`: an empty entry does nothing;
a non-empty non-numeric entry only shows the prompt info; a numeric entry
fetches the player directory — on failure the error is shown and `st.stop()`
ends the run before any tab — and then runs the two tabs independently. -/
def runSession (tid : String) (env : Env) : RenderOutcome :=
  if tid.isEmpty then
    { calls := [], errors := [], infos := [], tabsRendered := false,
      transfersOut := none, historyOut := none }
  else if str_isdigit tid then
    match fetch_players env.playersResp with
    | .error e =>
      { calls := [.players], errors := [errMsg e], infos := [],
        tabsRendered := false, transfersOut := none, historyOut := none }
    | .ok dir =>
      let t := transfersTab dir env.transfersResp
      let h := historyTab env.historyResp
      { calls := [FetchCall.players] ++ t.calls ++ h.calls,
        errors := t.errors ++ h.errors,
        infos := t.infos ++ h.infos,
        tabsRendered := true,
        transfersOut := some t, historyOut := some h }
  else
    { calls := [], errors := [],
      infos := ["Please enter your Team ID to proceed."],
      tabsRendered := false, transfersOut := none, historyOut := none }

/-- Is this cell a datetime or the null marker (a homogeneous datetime
column's cell, as produced by the coercing conversion)? -/
def isDtOrNullB : Value → Bool
  | .dt _ => true
  | .null => true
  | _ => false

/-- Sample history frame: the frame `fetch_history` builds from a response
whose per-gameweek rows carry only the `event` and `points` fields. -/
def gwPointsDF : DataFrame :=
  json_normalize
    [[("event", Value.int 2), ("points", Value.int 50)],
     [("event", Value.int 1), ("points", Value.int 60)]]

/-- Sample player directory. -/
def dirW : List (Int × String) := [(1, "Salah"), (2, "Haaland")]

/-- Sample raw transfers frame (as fetched), with a tied pair of transfer
timestamps. -/
def tdfW : DataFrame :=
  json_normalize
    [[("element_in", Value.int 1), ("element_out", Value.int 2),
      ("entry", Value.int 7), ("event", Value.int 3),
      ("time", Value.str "2023-08-11T10:20:30Z")],
     [("element_in", Value.int 2), ("element_out", Value.int 1),
      ("entry", Value.int 7), ("event", Value.int 4),
      ("time", Value.str "2023-09-11T10:20:30Z")],
     [("element_in", Value.int 1), ("element_out", Value.int 2),
      ("entry", Value.int 7), ("event", Value.int 4),
      ("time", Value.str "2023-09-11T10:20:30Z")]]

/-- Sample bootstrap body. -/
def playersBodyW : PlayersBody :=
  { elements := some [{ id := 1, web_name := "Salah" }, { id := 2, web_name := "Haaland" }] }

/-- Sample environment in which every fetch succeeds. -/
def envOkW : Env :=
  { playersResp := .response 200 (.ok playersBodyW),
    transfersResp := .response 200 (.ok tdfW.rows),
    historyResp := .response 200 (.ok { current := some gwPointsDF.rows, past := some [] }) }

/-- Environment whose bootstrap fetch answers HTTP 500. -/
def envPlayersFailW : Env :=
  { playersResp := .response 500 (.ok playersBodyW),
    transfersResp := .response 200 (.ok tdfW.rows),
    historyResp := .response 200 (.ok { current := some gwPointsDF.rows, past := some [] }) }

/-- A history body with empty current and past season arrays. -/
def emptyHistoryBodyW : HistoryBody := { current := some [], past := some [] }

/-- Transfers response records that lack the `time` field. -/
def noTimeRecordsW : List Row :=
  [[("element_in", Value.int 1), ("element_out", Value.int 2),
    ("entry", Value.int 7), ("event", Value.int 3)]]

/-- Transfers response records whose `time` value is unparseable. -/
def badTimeRecordsW : List Row :=
  [[("element_in", Value.int 1), ("element_out", Value.int 2),
    ("entry", Value.int 7), ("event", Value.int 3),
    ("time", Value.str "not a date")]]

end FPL

namespace FPL

/-! ### Generic facts about the stable sort -/

theorem mem_insertBefore {before : α → α → Bool} {x a : α} {l : List α} :
    a ∈ insertBefore before x l ↔ a = x ∨ a ∈ l := by
  induction l with
  | nil => simp [insertBefore]
  | cons y ys ih =>
    simp only [insertBefore]
    split
    · simp only [List.mem_cons, ih]
      tauto
    · simp only [List.mem_cons]

theorem mem_stableSort {before : α → α → Bool} {a : α} {l : List α} :
    a ∈ stableSort before l ↔ a ∈ l := by
  induction l with
  | nil => simp [stableSort]
  | cons x xs ih =>
    simp only [stableSort, mem_insertBefore, ih, List.mem_cons]

/-! ### Facts about cell values -/

theorem toDatetimeCoerce_shape (v : Value) :
    toDatetimeCoerce v = Value.null ∨ ∃ t, toDatetimeCoerce v = Value.dt t := by
  cases v with
  | null => left; rfl
  | dt t => right; exact ⟨t, rfl⟩
  | int n => right; exact ⟨n, rfl⟩
  | str s =>
    cases hp : parseTimestamp s with
    | none => left; simp [toDatetimeCoerce, toDatetimeValue, hp]
    | some t => right; exact ⟨t, by simp [toDatetimeCoerce, toDatetimeValue, hp]⟩

theorem toDatetimeValue_shape {v w : Value} (h : toDatetimeValue v = .ok w) :
    w = Value.null ∨ ∃ t, w = Value.dt t := by
  cases v with
  | null => cases h; left; rfl
  | dt t => cases h; right; exact ⟨t, rfl⟩
  | int n => cases h; right; exact ⟨n, rfl⟩
  | str s =>
    simp only [toDatetimeValue] at h
    cases hp : parseTimestamp s with
    | none => rw [hp] at h; cases h
    | some t => rw [hp] at h; cases h; right; exact ⟨t, rfl⟩

theorem toDatetimeCoerce_null : toDatetimeCoerce Value.null = Value.null := rfl

theorem toDatetimeCoerce_unparseable {s : String} (h : parseTimestamp s = none) :
    toDatetimeCoerce (Value.str s) = Value.null := by
  simp [toDatetimeCoerce, toDatetimeValue, h]

/-! ### Facts about row cells -/

theorem cell_setRow_same (r : Row) (c : String) (v : Value) :
    Row.cell (setRow r c v) c = v := by
  induction r with
  | nil => simp [setRow, Row.cell, List.lookup]
  | cons p r' ih =>
    obtain ⟨k, b⟩ := p
    by_cases h : k = c
    · have hb : (k == c) = true := by simpa using h
      simpa [setRow, List.filter_cons, hb] using ih
    · have hb : (k == c) = false := by simpa using h
      have hb' : (c == k) = false := by simpa using Ne.symm h
      simp only [setRow, List.filter_cons, hb] at ih ⊢
      simpa [Row.cell, List.lookup, hb'] using ih

theorem cell_setRow_other (r : Row) {c c' : String} (h : c' ≠ c) (v : Value) :
    Row.cell (setRow r c v) c' = Row.cell r c' := by
  induction r with
  | nil =>
    have hb : (c' == c) = false := by simpa using h
    simp [setRow, Row.cell, List.lookup, hb]
  | cons p r' ih =>
    obtain ⟨k, b⟩ := p
    by_cases hk : k = c
    · have hb : (k == c) = true := by simpa using hk
      have hck : (c' == k) = false := by
        simp only [beq_eq_false_iff_ne]
        exact fun hc => h (hc.trans hk)
      simp only [setRow, List.filter_cons, hb] at ih ⊢
      simpa [Row.cell, List.lookup, hck] using ih
    · have hb : (k == c) = false := by simpa using hk
      by_cases hck : c' = k
      · have hck' : (c' == k) = true := by simpa using hck
        simp [setRow, List.filter_cons, hb, Row.cell, List.lookup, hck']
      · have hck' : (c' == k) = false := by simpa using hck
        simp only [setRow, List.filter_cons, hb] at ih ⊢
        simpa [Row.cell, List.lookup, hck'] using ih

theorem cell_dropRow (r : Row) {cs : List String} {c' : String}
    (h : cs.contains c' = false) :
    Row.cell (r.filter (fun p => !(cs.contains p.1))) c' = Row.cell r c' := by
  induction r with
  | nil => rfl
  | cons p r' ih =>
    obtain ⟨k, b⟩ := p
    by_cases hk : cs.contains k
    · have hck : (c' == k) = false := by
        simp only [beq_eq_false_iff_ne]
        intro hc
        rw [hc] at h
        rw [h] at hk
        cases hk
      have hfc : ((k, b) :: r').filter (fun p => !(cs.contains p.1)) =
          r'.filter (fun p => !(cs.contains p.1)) := by
        simp [List.filter_cons, show k ∈ cs from by simpa using hk]
      rw [hfc]
      simp only [Row.cell, List.lookup] at ih ⊢
      simpa [hck] using ih
    · have hfc : ((k, b) :: r').filter (fun p => !(cs.contains p.1)) =
          (k, b) :: r'.filter (fun p => !(cs.contains p.1)) := by
        simp [List.filter_cons, show k ∉ cs from by simpa using hk]
      rw [hfc]
      by_cases hck : c' = k
      · have hck' : (c' == k) = true := by simpa using hck
        simp [Row.cell, List.lookup, hck']
      · have hck' : (c' == k) = false := by simpa using hck
        simp only [Row.cell, List.lookup] at ih ⊢
        simpa [hck'] using ih

theorem mem_insertNew {cols : List String} {c x : String} :
    x ∈ insertNew cols c ↔ x ∈ cols ∨ x = c := by
  unfold insertNew
  split
  · rename_i h
    constructor
    · exact Or.inl
    · rintro (hx | rfl)
      · exact hx
      · simpa using h
  · simp

theorem insertNew_of_mem {cols : List String} {c : String}
    (h : cols.contains c = true) : insertNew cols c = cols := by
  unfold insertNew
  rw [if_pos h]

/-! ### Rows and columns of `sort_values` -/

theorem sort_values_mem {df : DataFrame} {c : String} {asc : Bool} {r : Row}
    (h : r ∈ (df.sort_values c asc).rows) : r ∈ df.rows := by
  unfold DataFrame.sort_values at h
  simp only [List.mem_append, mem_stableSort, List.mem_filter] at h
  rcases h with ⟨h, -⟩ | ⟨h, -⟩ <;> exact h

theorem sort_values_columns (df : DataFrame) (c : String) (asc : Bool) :
    (df.sort_values c asc).columns = df.columns := rfl

/-! ### Facts about `mapRowsE` and `normalizeColumns` -/

theorem mapRowsE_ok_mem {f : Row → Except String Row} :
    ∀ {l l' : List Row}, mapRowsE f l = .ok l' → ∀ r' ∈ l', ∃ r ∈ l, f r = .ok r'
  | [], l', h => by
    cases h
    intro r' hr'
    cases hr'
  | r :: rs, l', h => by
    simp only [mapRowsE] at h
    cases hf : f r with
    | error e => rw [hf] at h; cases h
    | ok r0 =>
      rw [hf] at h
      cases hrest : mapRowsE f rs with
      | error e => rw [hrest] at h; cases h
      | ok rs0 =>
        rw [hrest] at h
        cases h
        intro r' hr'
        rcases List.mem_cons.mp hr' with rfl | hr'
        · exact ⟨r, List.mem_cons_self r rs, hf⟩
        · obtain ⟨a, ha, hfa⟩ := mapRowsE_ok_mem hrest r' hr'
          exact ⟨a, List.mem_cons_of_mem r ha, hfa⟩

theorem mapRowsE_ok_forall₂ {f : Row → Except String Row} :
    ∀ {l l' : List Row}, mapRowsE f l = .ok l' →
      List.Forall₂ (fun r r' => f r = .ok r') l l'
  | [], l', h => by cases h; exact List.Forall₂.nil
  | r :: rs, l', h => by
    simp only [mapRowsE] at h
    cases hf : f r with
    | error e => rw [hf] at h; cases h
    | ok r0 =>
      rw [hf] at h
      cases hrest : mapRowsE f rs with
      | error e => rw [hrest] at h; cases h
      | ok rs0 =>
        rw [hrest] at h
        cases h
        exact List.Forall₂.cons hf (mapRowsE_ok_forall₂ hrest)

theorem mapRowsE_error_of_mem {f : Row → Except String Row} {l : List Row}
    {r : Row} {e : String} (hr : r ∈ l) (hf : f r = .error e) :
    ∃ e', mapRowsE f l = .error e' := by
  induction l with
  | nil => cases hr
  | cons x xs ih =>
    simp only [mapRowsE]
    rcases List.mem_cons.mp hr with rfl | hr'
    · rw [hf]
      exact ⟨e, rfl⟩
    · cases hfx : f x with
      | error e0 => exact ⟨e0, rfl⟩
      | ok x0 =>
        obtain ⟨e', he'⟩ := ih hr'
        rw [he']
        exact ⟨e', rfl⟩

theorem mem_foldl_insertNew (ks : List String) (acc : List String) (x : String) :
    x ∈ ks.foldl insertNew acc ↔ x ∈ acc ∨ x ∈ ks := by
  induction ks generalizing acc with
  | nil => simp
  | cons k ks ih =>
    rw [List.foldl_cons, ih, mem_insertNew]
    simp only [List.mem_cons]
    tauto

theorem mem_normalizeColumns {records : List Row} {c : String} :
    c ∈ normalizeColumns records ↔ ∃ r ∈ records, c ∈ r.map Prod.fst := by
  unfold normalizeColumns
  have h : ∀ acc : List String,
      c ∈ records.foldl (fun acc r => (r.map Prod.fst).foldl insertNew acc) acc ↔
        c ∈ acc ∨ ∃ r ∈ records, c ∈ r.map Prod.fst := by
    induction records with
    | nil => simp
    | cons r rs ih =>
      intro acc
      rw [List.foldl_cons, ih, mem_foldl_insertNew]
      simp only [List.mem_cons]
      constructor
      · rintro ((h | h) | ⟨a, ha, hc⟩)
        · exact Or.inl h
        · exact Or.inr ⟨r, Or.inl rfl, h⟩
        · exact Or.inr ⟨a, Or.inr ha, hc⟩
      · rintro (h | ⟨a, rfl | ha, hc⟩)
        · exact Or.inl (Or.inl h)
        · exact Or.inl (Or.inr hc)
        · exact Or.inr ⟨a, ha, hc⟩
  simpa using h []

theorem lookup_mem_keys {r : Row} {c : String} {v : Value}
    (h : r.lookup c = some v) : c ∈ r.map Prod.fst := by
  induction r with
  | nil => cases h
  | cons p r' ih =>
    obtain ⟨k, b⟩ := p
    simp only [List.lookup] at h
    cases hck : (c == k)
    · rw [hck] at h
      exact List.mem_cons_of_mem _ (ih h)
    · have : c = k := by simpa using hck
      simp [this]

/-! ### Tracking the `time` column through the transfers shaping -/

theorem contains_eq_true_iff {l : List String} {c : String} :
    l.contains c = true ↔ c ∈ l := by
  simp [List.contains]

theorem mapColumn_columns_of_contains {df : DataFrame} {c : String} (g : Value → Value)
    (h : df.columns.contains c = true) :
    (df.mapColumn c g).columns = df.columns := by
  simp [DataFrame.mapColumn, DataFrame.setColumn, insertNew_of_mem h]

theorem renameFn_time : renameFn transfersRenameMap "time" = "Transfer Time" := by decide

theorem renameFn_ne_TT {c : String} (hc : c ∈ desired_columns) (hne : c ≠ "time") :
    renameFn transfersRenameMap c ≠ "Transfer Time" := by
  simp only [desired_columns, List.mem_cons, List.not_mem_nil, or_false] at hc
  rcases hc with rfl | rfl | rfl | rfl | rfl
  · decide
  · decide
  · decide
  · decide
  · exact absurd rfl hne

theorem cell_selectRenamed_time (r2 : Row) (cs : List String)
    (hsub : ∀ c ∈ cs, c ∈ desired_columns) (hmem : "time" ∈ cs) :
    Row.cell ((cs.map (fun c => (c, Row.cell r2 c))).map
      (fun p => (renameFn transfersRenameMap p.1, p.2))) "Transfer Time" =
      Row.cell r2 "time" := by
  induction cs with
  | nil => cases hmem
  | cons c cs' ih =>
    simp only [List.map_cons]
    by_cases hc : c = "time"
    · subst hc
      have hbeq : ("Transfer Time" == renameFn transfersRenameMap "time") = true := by decide
      simp only [Row.cell, List.lookup, hbeq]
    · have hne := renameFn_ne_TT (hsub c (List.mem_cons_self c cs')) hc
      have hbeq : ("Transfer Time" == renameFn transfersRenameMap c) = false := by
        simpa using Ne.symm hne
      have hmem' : "time" ∈ cs' := by
        rcases List.mem_cons.mp hmem with h | h
        · exact absurd h.symm hc
        · exact h
      have := ih (fun d hd => hsub d (List.mem_cons_of_mem c hd)) hmem'
      simp only [Row.cell, List.lookup, hbeq] at this ⊢
      exact this

theorem addNames_time (dir : List (Int × String)) (df : DataFrame)
    (h : df.columns.contains "time" = true) :
    ((transfersAddNames dir df).1).columns.contains "time" = true ∧
    ∀ r1 ∈ ((transfersAddNames dir df).1).rows, ∃ r ∈ df.rows,
      Row.cell r1 "time" = Row.cell r "time" := by
  unfold transfersAddNames
  split
  · constructor
    · rw [contains_eq_true_iff]
      simp only [DataFrame.setColumn, mem_insertNew]
      left; left
      exact contains_eq_true_iff.mp h
    · intro r1 hr1
      simp only [DataFrame.setColumn, List.mem_map] at hr1
      obtain ⟨r2, hr2, hr2e⟩ := hr1
      obtain ⟨r, hr, hre⟩ := hr2
      refine ⟨r, hr, ?_⟩
      subst hr2e
      subst hre
      rw [cell_setRow_other _ (by decide), cell_setRow_other _ (by decide)]
  · exact ⟨h, fun r1 hr1 => ⟨r1, hr1, rfl⟩⟩

theorem dropIds_time (df1 : DataFrame)
    (h : df1.columns.contains "time" = true) :
    (transfersDropIds df1).columns.contains "time" = true ∧
    ∀ r2 ∈ (transfersDropIds df1).rows, ∃ r1 ∈ df1.rows,
      Row.cell r2 "time" = Row.cell r1 "time" := by
  unfold transfersDropIds
  split
  · constructor
    · rw [contains_eq_true_iff]
      simp only [DataFrame.dropCols, List.mem_filter]
      exact ⟨contains_eq_true_iff.mp h, by decide⟩
    · intro r2 hr2
      simp only [DataFrame.dropCols, List.mem_map] at hr2
      obtain ⟨r1, hr1, hre⟩ := hr2
      refine ⟨r1, hr1, ?_⟩
      subst hre
      rw [cell_dropRow _ (by decide)]
  · exact ⟨h, fun r1 hr1 => ⟨r1, hr1, rfl⟩⟩

theorem transfersWorking_time (dir : List (Int × String)) (df : DataFrame)
    (h : df.columns.contains "time" = true) :
    (transfersWorking dir df).columns.contains "time" = true ∧
    ∀ r2 ∈ (transfersWorking dir df).rows, ∃ r ∈ df.rows,
      Row.cell r2 "time" = Row.cell r "time" := by
  obtain ⟨h1, h1r⟩ := addNames_time dir df h
  obtain ⟨h2, h2r⟩ := dropIds_time _ h1
  refine ⟨h2, ?_⟩
  intro r2 hr2
  obtain ⟨r1, hr1, he1⟩ := h2r r2 hr2
  obtain ⟨r, hr, he⟩ := h1r r1 hr1
  exact ⟨r, hr, he1.trans he⟩

theorem transfersSelected_time (dir : List (Int × String)) (df : DataFrame)
    (h : df.columns.contains "time" = true) :
    (transfersSelected dir df).columns.contains "Transfer Time" = true ∧
    ∀ r3 ∈ (transfersSelected dir df).rows, ∃ r ∈ df.rows,
      Row.cell r3 "Transfer Time" = Row.cell r "time" := by
  obtain ⟨h2, h2r⟩ := transfersWorking_time dir df h
  have htav : "time" ∈ transfersAvailable (transfersWorking dir df) := by
    unfold transfersAvailable
    rw [List.mem_filter]
    exact ⟨by decide, h2⟩
  have hsub : ∀ c ∈ transfersAvailable (transfersWorking dir df), c ∈ desired_columns :=
    fun c hc => (List.mem_filter.mp hc).1
  constructor
  · rw [contains_eq_true_iff]
    unfold transfersSelected
    simp only [DataFrame.rename, DataFrame.select, List.mem_map]
    exact ⟨"time", htav, renameFn_time⟩
  · intro r3 hr3
    unfold transfersSelected at hr3
    simp only [DataFrame.rename, DataFrame.select, List.mem_map] at hr3
    obtain ⟨r2p, ⟨r2, hr2, hr2e⟩, hr3e⟩ := hr3
    obtain ⟨r, hr, he⟩ := h2r r2 hr2
    refine ⟨r, hr, ?_⟩
    subst hr3e
    subst hr2e
    rw [cell_selectRenamed_time _ _ hsub htav]
    exact he

theorem shapeTransfersUnsorted_time (dir : List (Int × String)) (df : DataFrame)
    (h : df.columns.contains "time" = true) :
    ((shapeTransfersUnsorted dir df).1).columns.contains "Transfer Time" = true ∧
    ∀ r4 ∈ ((shapeTransfersUnsorted dir df).1).rows, ∃ r ∈ df.rows,
      Row.cell r4 "Transfer Time" = toDatetimeCoerce (Row.cell r "time") := by
  obtain ⟨h3, h3r⟩ := transfersSelected_time dir df h
  unfold shapeTransfersUnsorted
  rw [if_pos h3]
  constructor
  · rw [mapColumn_columns_of_contains _ h3]
    exact h3
  · intro r4 hr4
    simp only [DataFrame.mapColumn, DataFrame.setColumn, List.mem_map] at hr4
    obtain ⟨r3, hr3, hr4e⟩ := hr4
    obtain ⟨r, hr, he⟩ := h3r r3 hr3
    refine ⟨r, hr, ?_⟩
    subst hr4e
    rw [cell_setRow_same, he]

/-! ### Columns and warnings of the shaped tables -/

theorem shapeTransfers_snd (dir : List (Int × String)) (df : DataFrame) :
    (shapeTransfers dir df).2 =
      (transfersAddNames dir df).2 ++
        (if (transfersMissing (transfersWorking dir df)).isEmpty then []
         else [Warning.missingColumns (transfersMissing (transfersWorking dir df))]) := rfl

theorem shapeTransfers_columns_eq_unsorted (dir : List (Int × String)) (df : DataFrame) :
    ((shapeTransfers dir df).1).columns = ((shapeTransfersUnsorted dir df).1).columns := by
  unfold shapeTransfers
  split
  · exact sort_values_columns _ _ _
  · rfl

theorem shapeTransfersUnsorted_columns (dir : List (Int × String)) (df : DataFrame) :
    ((shapeTransfersUnsorted dir df).1).columns =
      (transfersAvailable (transfersWorking dir df)).map (renameFn transfersRenameMap) := by
  unfold shapeTransfersUnsorted
  by_cases h3 : (transfersSelected dir df).columns.contains "Transfer Time" = true
  · rw [if_pos h3]
    rw [mapColumn_columns_of_contains _ h3]
    rfl
  · rw [if_neg h3]
    rfl

theorem shapeTransfers_columns (dir : List (Int × String)) (df : DataFrame) :
    ((shapeTransfers dir df).1).columns =
      (transfersAvailable (transfersWorking dir df)).map (renameFn transfersRenameMap) :=
  (shapeTransfers_columns_eq_unsorted dir df).trans (shapeTransfersUnsorted_columns dir df)

theorem shapeHistory_snd (df : DataFrame) :
    (shapeHistory df).2 =
      (if (historyMissing (historyRenamed df)).isEmpty then []
       else [Warning.missingHistoryColumns (historyMissing (historyRenamed df))]) := rfl

theorem shapeHistory_columns (df : DataFrame) :
    ((shapeHistory df).1).columns = historyAvailable (historyRenamed df) := by
  unfold shapeHistory
  split
  · rw [sort_values_columns]
    rfl
  · rfl

theorem contains_eq_false_iff {l : List String} {c : String} :
    l.contains c = false ↔ c ∉ l := by
  simp [List.contains]

/-! ### The claims -/

/-- Claim C1: for every transfers table and every history table, the shaping
step restricts the table to the fixed display column set by computing exactly
the subset of desired columns present in the input, surfaces the missing
subset as a warning (not an exception — all shaping functions are total), and
proceeds with the available subset; in particular, for a history response
containing only gameweek and points, the shaped table has exactly the columns
Gameweek and Points (after renaming) and every other desired column is
reported missing. -/
theorem claim_C1 :
    (∀ (dir : List (Int × String)) (df : DataFrame),
      ((shapeTransfers dir df).1).columns =
          (transfersAvailable (transfersWorking dir df)).map (renameFn transfersRenameMap) ∧
      (∀ c, c ∈ transfersAvailable (transfersWorking dir df) ↔
          c ∈ desired_columns ∧ c ∈ (transfersWorking dir df).columns) ∧
      (∀ c, c ∈ transfersMissing (transfersWorking dir df) ↔
          c ∈ desired_columns ∧ c ∉ (transfersWorking dir df).columns) ∧
      ((shapeTransfers dir df).2 =
          (transfersAddNames dir df).2 ++
            (if (transfersMissing (transfersWorking dir df)).isEmpty then []
             else [Warning.missingColumns (transfersMissing (transfersWorking dir df))]))) ∧
    (∀ df : DataFrame,
      ((shapeHistory df).1).columns = historyAvailable (historyRenamed df) ∧
      (∀ c, c ∈ historyAvailable (historyRenamed df) ↔
          c ∈ desired_history_columns ∧ c ∈ (historyRenamed df).columns) ∧
      (∀ c, c ∈ historyMissing (historyRenamed df) ↔
          c ∈ desired_history_columns ∧ c ∉ (historyRenamed df).columns) ∧
      ((shapeHistory df).2 =
          if (historyMissing (historyRenamed df)).isEmpty then []
          else [Warning.missingHistoryColumns (historyMissing (historyRenamed df))])) ∧
    (((shapeHistory gwPointsDF).1).columns = ["Gameweek", "Points"] ∧
      (shapeHistory gwPointsDF).2 =
        [Warning.missingHistoryColumns
          ["Overall Rank", "Rank", "Total Points", "Bank", "Transfers",
           "Transfers Cost", "Bench Points"]]) := by
  refine ⟨fun dir df => ⟨shapeTransfers_columns dir df, ?_, ?_, shapeTransfers_snd dir df⟩,
    fun df => ⟨shapeHistory_columns df, ?_, ?_, shapeHistory_snd df⟩,
    by decide, by decide⟩
  · intro c
    simp [transfersAvailable, List.mem_filter, contains_eq_true_iff]
  · intro c
    simp [transfersMissing, List.mem_filter, contains_eq_false_iff]
  · intro c
    simp [historyAvailable, List.mem_filter, contains_eq_true_iff]
  · intro c
    simp [historyMissing, List.mem_filter, contains_eq_false_iff]

/-- Claim C4: `fetch_history` flattens the current season array together
with the nested history arrays of the past seasons into one row sequence;
when both arrays are empty it returns an empty table (not an error) and the
history tab then reports that no performance history is available. -/
theorem claim_C4 : ∀ (code : Nat) (b : HistoryBody), raiseForStatus code = false →
    (∃ df, fetch_history (.response code (.ok b)) = .ok df ∧
      df.rows = (b.current.getD []) ++
        ((b.past.getD []).map (fun sn => sn.history.getD [])).flatten) ∧
    (b.current.getD [] = [] → b.past.getD [] = [] →
      fetch_history (.response code (.ok b)) = .ok { columns := [], rows := [] } ∧
      (historyTab (.response code (.ok b))).infos =
        ["No performance history data available for this Team ID."] ∧
      (historyTab (.response code (.ok b))).errors = [] ∧
      (historyTab (.response code (.ok b))).table = none) := by
  intro code b hc
  have hfetch : fetch_history (.response code (.ok b)) =
      (if (allHistory b).isEmpty then .ok { columns := [], rows := [] }
       else .ok (json_normalize (allHistory b))) := by
    simp only [fetch_history]
    rw [if_neg (by simp [hc])]
  constructor
  · by_cases he : (allHistory b).isEmpty = true
    · refine ⟨{ columns := [], rows := [] }, ?_, ?_⟩
      · rw [hfetch, if_pos he]
      · exact (List.isEmpty_iff.mp he).symm
    · refine ⟨json_normalize (allHistory b), ?_, rfl⟩
      rw [hfetch, if_neg he]
  · intro hcur hpast
    have hemp : allHistory b = [] := by
      unfold allHistory
      rw [hcur, hpast]
      rfl
    have hf : fetch_history (.response code (.ok b)) = .ok { columns := [], rows := [] } := by
      rw [hfetch, if_pos (by simp [hemp])]
    refine ⟨hf, ?_, ?_, ?_⟩ <;>
      · unfold historyTab
        rw [hf]
        rfl

/-- Witness for C4: a concrete successful history response with empty
current and past arrays yields the empty table and the no-data info. -/
theorem claim_C4_witness :
    fetch_history (.response 200 (.ok emptyHistoryBodyW)) =
        .ok { columns := [], rows := [] } ∧
    (historyTab (.response 200 (.ok emptyHistoryBodyW))).infos =
        ["No performance history data available for this Team ID."] :=
  ⟨((claim_C4 200 emptyHistoryBodyW (by decide)).2 rfl rfl).1,
   ((claim_C4 200 emptyHistoryBodyW (by decide)).2 rfl rfl).2.1⟩

/-- Claim C5: when the player-directory fetch fails, no transfers fetch and
no history fetch is attempted, no tabs are rendered, and exactly one error
message is surfaced for that submission. -/
theorem claim_C5 : ∀ (tid : String) (env : Env) (e : FetchError),
    str_isdigit tid = true → fetch_players env.playersResp = .error e →
    (runSession tid env).calls = [FetchCall.players] ∧
    (runSession tid env).errors = [errMsg e] ∧
    (runSession tid env).errors.length = 1 ∧
    (runSession tid env).tabsRendered = false ∧
    (runSession tid env).transfersOut = none ∧
    (runSession tid env).historyOut = none := by
  intro tid env e h1 h2
  have hne : tid.isEmpty = false := by
    cases htid : tid.isEmpty
    · rfl
    · unfold str_isdigit at h1
      rw [htid] at h1
      simp at h1
  unfold runSession
  rw [if_neg (by simp [hne]), if_pos h1, h2]
  exact ⟨rfl, rfl, rfl, rfl, rfl, rfl⟩

/-- Witness for C5: a numeric team id against an environment whose bootstrap
call answers HTTP 500. -/
theorem claim_C5_witness :
    (runSession "7108828" envPlayersFailW).calls = [FetchCall.players] ∧
    (runSession "7108828" envPlayersFailW).errors.length = 1 ∧
    (runSession "7108828" envPlayersFailW).tabsRendered = false := by
  have h := claim_C5 "7108828" envPlayersFailW
    (.httpError (httpMsg "players" (httpExcText 500)) (httpExcText 500))
    (by decide) (by rfl)
  exact ⟨h.1, h.2.2.1, h.2.2.2.1⟩

/-- Claim C6: a non-empty, non-numeric team identifier triggers no fetch at
all and leaves the session in the input-awaiting state with an informational
prompt. -/
theorem claim_C6 : ∀ (tid : String) (env : Env),
    tid.isEmpty = false → str_isdigit tid = false →
    (runSession tid env).calls = [] ∧
    (runSession tid env).errors = [] ∧
    (runSession tid env).infos = ["Please enter your Team ID to proceed."] ∧
    (runSession tid env).tabsRendered = false ∧
    (runSession tid env).transfersOut = none ∧
    (runSession tid env).historyOut = none := by
  intro tid env h1 h2
  unfold runSession
  rw [if_neg (by simp [h1]), if_neg (by simp [h2])]
  exact ⟨rfl, rfl, rfl, rfl, rfl, rfl⟩

/-- Witness for C6: the concrete non-numeric entry "abc123x". -/
theorem claim_C6_witness :
    (runSession "abc123x" envOkW).calls = [] ∧
    (runSession "abc123x" envOkW).infos = ["Please enter your Team ID to proceed."] := by
  have h := claim_C6 "abc123x" envOkW (by decide) (by decide)
  exact ⟨h.1, h.2.2.1⟩

/-! ### Branch equations of the three fetches -/

theorem fetch_players_netError (e : String) :
    fetch_players (.netError e) = .error (.otherError (otherMsg "players" e) e) := rfl

theorem fetch_players_http (code : Nat) (body : Except String PlayersBody)
    (hs : raiseForStatus code = true) :
    fetch_players (.response code body) =
      .error (.httpError (httpMsg "players" (httpExcText code)) (httpExcText code)) := by
  simp only [fetch_players]
  rw [if_pos hs]

theorem fetch_players_parseErr (code : Nat) (e : String)
    (hs : raiseForStatus code = false) :
    fetch_players (.response code (.error e)) =
      .error (.otherError (otherMsg "players" e) e) := by
  simp only [fetch_players]
  rw [if_neg (by simp [hs])]

theorem fetch_players_okBody (code : Nat) (b : PlayersBody)
    (hs : raiseForStatus code = false) :
    fetch_players (.response code (.ok b)) =
      (match b.elements with
       | none => .error (.otherError (otherMsg "players" "KeyError: elements")
           "KeyError: elements")
       | some ps => .ok (buildDirectory ps)) := by
  simp only [fetch_players]
  rw [if_neg (by simp [hs])]

theorem fetch_transfers_netError (e : String) :
    fetch_transfers (.netError e) = .error (.otherError (otherMsg "transfers" e) e) := rfl

theorem fetch_transfers_http (code : Nat) (body : Except String (List Row))
    (hs : raiseForStatus code = true) :
    fetch_transfers (.response code body) =
      .error (.httpError (httpMsg "transfers" (httpExcText code)) (httpExcText code)) := by
  simp only [fetch_transfers]
  rw [if_pos hs]

theorem fetch_transfers_parseErr (code : Nat) (e : String)
    (hs : raiseForStatus code = false) :
    fetch_transfers (.response code (.error e)) =
      .error (.otherError (otherMsg "transfers" e) e) := by
  simp only [fetch_transfers]
  rw [if_neg (by simp [hs])]

theorem fetch_transfers_okBody (code : Nat) (records : List Row)
    (hs : raiseForStatus code = false) :
    fetch_transfers (.response code (.ok records)) =
      (if (json_normalize records).columns.contains "time" then
         match mapRowsE timeRowE (json_normalize records).rows with
         | .ok rows' => .ok { columns := (json_normalize records).columns, rows := rows' }
         | .error e => .error (.otherError (otherMsg "transfers" e) e)
       else .ok ((json_normalize records).setColumn "time" (fun _ => Value.null))) := by
  simp only [fetch_transfers]
  rw [if_neg (by simp [hs])]

theorem fetch_history_netError (e : String) :
    fetch_history (.netError e) = .error (.otherError (otherMsg "history" e) e) := rfl

theorem fetch_history_http (code : Nat) (body : Except String HistoryBody)
    (hs : raiseForStatus code = true) :
    fetch_history (.response code body) =
      .error (.httpError (httpMsg "history" (httpExcText code)) (httpExcText code)) := by
  simp only [fetch_history]
  rw [if_pos hs]

theorem fetch_history_parseErr (code : Nat) (e : String)
    (hs : raiseForStatus code = false) :
    fetch_history (.response code (.error e)) =
      .error (.otherError (otherMsg "history" e) e) := by
  simp only [fetch_history]
  rw [if_neg (by simp [hs])]

theorem fetch_history_okBody (code : Nat) (b : HistoryBody)
    (hs : raiseForStatus code = false) :
    fetch_history (.response code (.ok b)) =
      (if (allHistory b).isEmpty then .ok { columns := [], rows := [] }
       else .ok (json_normalize (allHistory b))) := by
  simp only [fetch_history]
  rw [if_neg (by simp [hs])]

theorem bool_eq_false_of_ne_true {b : Bool} (h : ¬b = true) : b = false := by
  cases b
  · rfl
  · exact absurd rfl h

theorem ne_true_of_eq_false {b : Bool} (h : b = false) : ¬b = true := by
  rw [h]
  exact Bool.false_ne_true

theorem transfersTab_calls (dir : List (Int × String)) (resp : HttpResult (List Row)) :
    (transfersTab dir resp).calls = [FetchCall.transfers] := by
  unfold transfersTab
  split
  · rfl
  · split
    · rfl
    · rfl

theorem historyTab_calls (resp : HttpResult HistoryBody) :
    (historyTab resp).calls = [FetchCall.history] := by
  unfold historyTab
  split
  · rfl
  · split
    · rfl
    · rfl

/-- Claim C3: every fetch fails with exactly one of two error kinds — an
HTTP error exactly when the upstream status is non-success, and an "other"
error for network failure, malformed JSON, or any other exception during the
fetch — each carrying the human-readable message built from the originating
cause; and an error is fatal only to the fetch that produced it: with the
directory fetched, both tabs always run their own fetch, whatever the
outcome of either. -/
theorem claim_C3 :
    (∀ r : HttpResult PlayersBody,
      (∃ x, fetch_players r = .ok x) ∨
      (∃ c, fetch_players r = .error (.httpError (httpMsg "players" c) c)) ∨
      (∃ c, fetch_players r = .error (.otherError (otherMsg "players" c) c))) ∧
    (∀ (r : HttpResult PlayersBody) (m c : String),
      fetch_players r = .error (.httpError m c) →
      ∃ code body, r = .response code body ∧ raiseForStatus code = true) ∧
    (∀ r : HttpResult (List Row),
      (∃ x, fetch_transfers r = .ok x) ∨
      (∃ c, fetch_transfers r = .error (.httpError (httpMsg "transfers" c) c)) ∨
      (∃ c, fetch_transfers r = .error (.otherError (otherMsg "transfers" c) c))) ∧
    (∀ (r : HttpResult (List Row)) (m c : String),
      fetch_transfers r = .error (.httpError m c) →
      ∃ code body, r = .response code body ∧ raiseForStatus code = true) ∧
    (∀ r : HttpResult HistoryBody,
      (∃ x, fetch_history r = .ok x) ∨
      (∃ c, fetch_history r = .error (.httpError (httpMsg "history" c) c)) ∨
      (∃ c, fetch_history r = .error (.otherError (otherMsg "history" c) c))) ∧
    (∀ (r : HttpResult HistoryBody) (m c : String),
      fetch_history r = .error (.httpError m c) →
      ∃ code body, r = .response code body ∧ raiseForStatus code = true) ∧
    (∀ (tid : String) (env : Env) (dir : List (Int × String)),
      str_isdigit tid = true → fetch_players env.playersResp = .ok dir →
      (runSession tid env).calls =
        [FetchCall.players, FetchCall.transfers, FetchCall.history] ∧
      (runSession tid env).tabsRendered = true) := by
  refine ⟨?_, ?_, ?_, ?_, ?_, ?_, ?_⟩
  · intro r
    cases r with
    | netError e => exact Or.inr (Or.inr ⟨e, fetch_players_netError e⟩)
    | response code body =>
      by_cases hs : raiseForStatus code = true
      · exact Or.inr (Or.inl ⟨httpExcText code, fetch_players_http code body hs⟩)
      · have hs' := bool_eq_false_of_ne_true hs
        cases body with
        | error e => exact Or.inr (Or.inr ⟨e, fetch_players_parseErr code e hs'⟩)
        | ok b =>
          cases hbe : b.elements with
          | none =>
            refine Or.inr (Or.inr ⟨"KeyError: elements", ?_⟩)
            rw [fetch_players_okBody code b hs', hbe]
          | some ps =>
            refine Or.inl ⟨buildDirectory ps, ?_⟩
            rw [fetch_players_okBody code b hs', hbe]
  · intro r m c h
    cases r with
    | netError e =>
      rw [fetch_players_netError] at h
      simp at h
    | response code body =>
      by_cases hs : raiseForStatus code = true
      · exact ⟨code, body, rfl, hs⟩
      · have hs' := bool_eq_false_of_ne_true hs
        cases body with
        | error e =>
          rw [fetch_players_parseErr code e hs'] at h
          simp at h
        | ok b =>
          rw [fetch_players_okBody code b hs'] at h
          cases hbe : b.elements with
          | none => rw [hbe] at h; simp at h
          | some ps => rw [hbe] at h; simp at h
  · intro r
    cases r with
    | netError e => exact Or.inr (Or.inr ⟨e, fetch_transfers_netError e⟩)
    | response code body =>
      by_cases hs : raiseForStatus code = true
      · exact Or.inr (Or.inl ⟨httpExcText code, fetch_transfers_http code body hs⟩)
      · have hs' := bool_eq_false_of_ne_true hs
        cases body with
        | error e => exact Or.inr (Or.inr ⟨e, fetch_transfers_parseErr code e hs'⟩)
        | ok records =>
          by_cases ht : (json_normalize records).columns.contains "time" = true
          · cases hm : mapRowsE timeRowE (json_normalize records).rows with
            | ok rows' =>
              refine Or.inl ⟨{ columns := (json_normalize records).columns, rows := rows' }, ?_⟩
              rw [fetch_transfers_okBody code records hs', if_pos ht, hm]
            | error e =>
              refine Or.inr (Or.inr ⟨e, ?_⟩)
              rw [fetch_transfers_okBody code records hs', if_pos ht, hm]
          · refine Or.inl ⟨(json_normalize records).setColumn "time" (fun _ => Value.null), ?_⟩
            rw [fetch_transfers_okBody code records hs', if_neg ht]
  · intro r m c h
    cases r with
    | netError e =>
      rw [fetch_transfers_netError] at h
      simp at h
    | response code body =>
      by_cases hs : raiseForStatus code = true
      · exact ⟨code, body, rfl, hs⟩
      · have hs' := bool_eq_false_of_ne_true hs
        cases body with
        | error e =>
          rw [fetch_transfers_parseErr code e hs'] at h
          simp at h
        | ok records =>
          rw [fetch_transfers_okBody code records hs'] at h
          by_cases ht : (json_normalize records).columns.contains "time" = true
          · rw [if_pos ht] at h
            cases hm : mapRowsE timeRowE (json_normalize records).rows with
            | ok rows' => rw [hm] at h; simp at h
            | error e => rw [hm] at h; simp at h
          · rw [if_neg ht] at h
            simp at h
  · intro r
    cases r with
    | netError e => exact Or.inr (Or.inr ⟨e, fetch_history_netError e⟩)
    | response code body =>
      by_cases hs : raiseForStatus code = true
      · exact Or.inr (Or.inl ⟨httpExcText code, fetch_history_http code body hs⟩)
      · have hs' := bool_eq_false_of_ne_true hs
        cases body with
        | error e => exact Or.inr (Or.inr ⟨e, fetch_history_parseErr code e hs'⟩)
        | ok b =>
          by_cases he : (allHistory b).isEmpty = true
          · refine Or.inl ⟨{ columns := [], rows := [] }, ?_⟩
            rw [fetch_history_okBody code b hs', if_pos he]
          · refine Or.inl ⟨json_normalize (allHistory b), ?_⟩
            rw [fetch_history_okBody code b hs', if_neg he]
  · intro r m c h
    cases r with
    | netError e =>
      rw [fetch_history_netError] at h
      simp at h
    | response code body =>
      by_cases hs : raiseForStatus code = true
      · exact ⟨code, body, rfl, hs⟩
      · have hs' := bool_eq_false_of_ne_true hs
        cases body with
        | error e =>
          rw [fetch_history_parseErr code e hs'] at h
          simp at h
        | ok b =>
          rw [fetch_history_okBody code b hs'] at h
          by_cases he : (allHistory b).isEmpty = true
          · rw [if_pos he] at h
            simp at h
          · rw [if_neg he] at h
            simp at h
  · intro tid env dir h1 h2
    have hne : tid.isEmpty = false := by
      cases htid : tid.isEmpty
      · rfl
      · unfold str_isdigit at h1
        rw [htid] at h1
        simp at h1
    simp only [runSession]
    rw [if_neg (by simp [hne]), if_pos h1, h2]
    refine ⟨?_, rfl⟩
    simp [transfersTab_calls, historyTab_calls]

/-- Witness for C3: at HTTP 500 the bootstrap fetch yields exactly the
HTTP-error rewrap; with everything reachable, both tab fetches run after the
directory fetch. -/
theorem claim_C3_witness :
    (∃ code body, (HttpResult.response 500 (Except.ok playersBodyW) :
        HttpResult PlayersBody) = .response code body ∧ raiseForStatus code = true) ∧
    (runSession "7108828" envOkW).calls =
      [FetchCall.players, FetchCall.transfers, FetchCall.history] := by
  constructor
  · exact claim_C3.2.1 (.response 500 (.ok playersBodyW))
      (httpMsg "players" (httpExcText 500)) (httpExcText 500) (by rfl)
  · exact (claim_C3.2.2.2.2.2.2 "7108828" envOkW
      (buildDirectory [{ id := 1, web_name := "Salah" }, { id := 2, web_name := "Haaland" }])
      (by decide) (by rfl)).1

/-! ### The `time` column on fetched transfers -/

theorem lookup_of_mem_keys {r : Row} {c : String} (h : c ∈ r.map Prod.fst) :
    ∃ v, r.lookup c = some v := by
  induction r with
  | nil => cases h
  | cons p r' ih =>
    obtain ⟨k, b⟩ := p
    rw [List.map_cons] at h
    by_cases hck : c = k
    · exact ⟨b, by simp [List.lookup, hck]⟩
    · rcases List.mem_cons.mp h with hk | hk'
      · exact absurd hk hck
      · obtain ⟨v, hv⟩ := ih hk'
        exact ⟨v, by simp [List.lookup, show (c == k) = false from by simpa using hck, hv]⟩

theorem timeRowE_ok {r r' : Row} (h : timeRowE r = .ok r') :
    ∃ v, toDatetimeValue (Row.cell r "time") = .ok v ∧ r' = setRow r "time" v := by
  unfold timeRowE at h
  cases hv : toDatetimeValue (Row.cell r "time") with
  | ok v =>
    rw [hv] at h
    cases h
    exact ⟨v, rfl, rfl⟩
  | error e =>
    rw [hv] at h
    cases h

theorem normalize_contains_time {records : List Row} {r : Row} {v : Value}
    (hr : r ∈ records) (hv : r.lookup "time" = some v) :
    (normalizeColumns records).contains "time" = true := by
  rw [contains_eq_true_iff, mem_normalizeColumns]
  exact ⟨r, hr, lookup_mem_keys hv⟩

theorem normalize_no_time {records : List Row}
    (h : ∀ r ∈ records, r.lookup "time" = none) :
    (normalizeColumns records).contains "time" = false := by
  rw [contains_eq_false_iff]
  intro hmem
  rw [mem_normalizeColumns] at hmem
  obtain ⟨r, hr, hk⟩ := hmem
  obtain ⟨v, hv⟩ := lookup_of_mem_keys hk
  rw [h r hr] at hv
  cases hv

/-- Claim C7: a transfers response whose rows lack the `time` field flows
through the whole pipeline without an exception (every stage is a total
function) and yields rows whose transfer-time cell is null, both in the
fetched frame and, as `Transfer Time`, in the shaped table; and the Table
Shaper's timestamp conversion coerces any unparseable value to null rather
than raising. -/
theorem claim_C7 : ∀ (code : Nat) (records : List Row) (dir : List (Int × String))
    (df : DataFrame),
    raiseForStatus code = false →
    (∀ r ∈ records, r.lookup "time" = none) →
    fetch_transfers (.response code (.ok records)) = .ok df →
    (df.columns.contains "time" = true ∧
     (∀ r ∈ df.rows, Row.cell r "time" = Value.null) ∧
     ((shapeTransfers dir df).1).columns.contains "Transfer Time" = true ∧
     (∀ r ∈ ((shapeTransfers dir df).1).rows,
        Row.cell r "Transfer Time" = Value.null)) ∧
    (∀ s, parseTimestamp s = none → toDatetimeCoerce (Value.str s) = Value.null) ∧
    (∀ v, toDatetimeCoerce v = Value.null ∨ ∃ t, toDatetimeCoerce v = Value.dt t) := by
  intro code records dir df hs hnone hdf
  have ht : (json_normalize records).columns.contains "time" = false :=
    normalize_no_time hnone
  rw [fetch_transfers_okBody code records hs, if_neg (ne_true_of_eq_false ht)] at hdf
  cases hdf
  have hcol : ((json_normalize records).setColumn "time"
      (fun _ => Value.null)).columns.contains "time" = true := by
    rw [contains_eq_true_iff]
    simp only [DataFrame.setColumn, mem_insertNew]
    exact Or.inr trivial
  have hcells : ∀ r ∈ ((json_normalize records).setColumn "time"
      (fun _ => Value.null)).rows, Row.cell r "time" = Value.null := by
    intro r hr
    simp only [DataFrame.setColumn, List.mem_map] at hr
    obtain ⟨r0, hr0, hre⟩ := hr
    subst hre
    exact cell_setRow_same r0 "time" Value.null
  obtain ⟨hTT, htrack⟩ := shapeTransfersUnsorted_time dir _ hcol
  refine ⟨⟨hcol, hcells, ?_, ?_⟩, fun s hps => toDatetimeCoerce_unparseable hps,
    fun v => toDatetimeCoerce_shape v⟩
  · rw [shapeTransfers_columns_eq_unsorted]
    exact hTT
  · intro r hr
    unfold shapeTransfers at hr
    rw [if_pos hTT] at hr
    have hru := sort_values_mem hr
    obtain ⟨r0, hr0, hre⟩ := htrack r hru
    rw [hre, hcells r0 hr0]
    rfl

/-- Witness for C7: a concrete transfers response without the `time` field
yields null transfer times end to end. -/
theorem claim_C7_witness :
    (((json_normalize noTimeRecordsW).setColumn "time"
        (fun _ => Value.null)).columns.contains "time" = true) ∧
    (∀ r ∈ ((shapeTransfers dirW ((json_normalize noTimeRecordsW).setColumn "time"
        (fun _ => Value.null))).1).rows,
      Row.cell r "Transfer Time" = Value.null) := by
  have h := claim_C7 200 noTimeRecordsW dirW
    ((json_normalize noTimeRecordsW).setColumn "time" (fun _ => Value.null))
    (by decide) (by decide) (by rfl)
  exact ⟨h.1.1, h.1.2.2.2⟩

/-- Claim C9: a transfers response carrying an unparseable `time` string
makes `fetch_transfers` itself fail — the in-fetch `pd.to_datetime` runs
without coercion, so the whole fetch ends in the catch-all "other" error
rather than delivering rows with a null time to the shaper. -/
theorem claim_C9 : ∀ (code : Nat) (records : List Row) (r : Row) (s : String),
    raiseForStatus code = false →
    r ∈ records → r.lookup "time" = some (Value.str s) → parseTimestamp s = none →
    ∃ c, fetch_transfers (.response code (.ok records)) =
      .error (.otherError (otherMsg "transfers" c) c) := by
  intro code records r s hs hr hlk hps
  have ht := normalize_contains_time hr hlk
  have hcell : Row.cell r "time" = Value.str s := by
    unfold Row.cell
    rw [hlk]
  have herr : timeRowE r = .error ("Unknown datetime string format: " ++ s) := by
    unfold timeRowE
    rw [hcell]
    simp [toDatetimeValue, hps]
  obtain ⟨e', he'⟩ := mapRowsE_error_of_mem (l := (json_normalize records).rows) hr herr
  refine ⟨e', ?_⟩
  have ht' : (json_normalize records).columns.contains "time" = true := ht
  rw [fetch_transfers_okBody code records hs, if_pos ht', he']

/-- Witness for C9: the concrete response whose `time` is "not a date". -/
theorem claim_C9_witness :
    ∃ c, fetch_transfers (.response 200 (.ok badTimeRecordsW)) =
      .error (.otherError (otherMsg "transfers" c) c) :=
  claim_C9 200 badTimeRecordsW
    [("element_in", Value.int 1), ("element_out", Value.int 2),
     ("entry", Value.int 7), ("event", Value.int 3),
     ("time", Value.str "not a date")] "not a date"
    (by decide) (by decide) (by decide) (by decide)

/-- Claim C10: every table returned successfully by `fetch_transfers` has a
`time` column whose cells are datetimes or nulls: when the response carried
the field, the cells are exactly the parsed values of the response cells;
when it did not (including the entirely empty response), the column is added
filled with the null time. -/
theorem claim_C10 :
    (∀ (resp : HttpResult (List Row)) (df : DataFrame),
      fetch_transfers resp = .ok df →
      df.columns.contains "time" = true ∧
      ∀ r ∈ df.rows, isDtOrNullB (Row.cell r "time") = true) ∧
    (∀ (code : Nat) (records : List Row) (df : DataFrame),
      raiseForStatus code = false →
      fetch_transfers (.response code (.ok records)) = .ok df →
      ((json_normalize records).columns.contains "time" = true →
        List.Forall₂
          (fun r r' => toDatetimeValue (Row.cell r "time") = .ok (Row.cell r' "time"))
          records df.rows) ∧
      ((json_normalize records).columns.contains "time" = false →
        ∀ r ∈ df.rows, Row.cell r "time" = Value.null)) ∧
    fetch_transfers (.response 200 (.ok [])) = .ok { columns := ["time"], rows := [] } := by
  refine ⟨?_, ?_, by rfl⟩
  · intro resp df h
    cases resp with
    | netError e =>
      rw [fetch_transfers_netError] at h
      cases h
    | response code body =>
      by_cases hs : raiseForStatus code = true
      · rw [fetch_transfers_http code body hs] at h
        cases h
      · have hs' := bool_eq_false_of_ne_true hs
        cases body with
        | error e =>
          rw [fetch_transfers_parseErr code e hs'] at h
          cases h
        | ok records =>
          rw [fetch_transfers_okBody code records hs'] at h
          by_cases ht : (json_normalize records).columns.contains "time" = true
          · rw [if_pos ht] at h
            cases hm : mapRowsE timeRowE (json_normalize records).rows with
            | error e => rw [hm] at h; cases h
            | ok rows' =>
              rw [hm] at h
              cases h
              refine ⟨ht, ?_⟩
              intro r' hr'
              obtain ⟨r0, hr0, hok⟩ := mapRowsE_ok_mem hm r' hr'
              obtain ⟨v, hv, hre⟩ := timeRowE_ok hok
              subst hre
              rw [cell_setRow_same]
              rcases toDatetimeValue_shape hv with rfl | ⟨t, rfl⟩
              · rfl
              · rfl
          · rw [if_neg ht] at h
            cases h
            constructor
            · rw [contains_eq_true_iff]
              simp only [DataFrame.setColumn, mem_insertNew]
              exact Or.inr trivial
            · intro r hr
              simp only [DataFrame.setColumn, List.mem_map] at hr
              obtain ⟨r0, hr0, hre⟩ := hr
              subst hre
              rw [cell_setRow_same]
              rfl
  · intro code records df hs h
    rw [fetch_transfers_okBody code records hs] at h
    constructor
    · intro ht
      rw [if_pos ht] at h
      cases hm : mapRowsE timeRowE (json_normalize records).rows with
      | error e => rw [hm] at h; cases h
      | ok rows' =>
        rw [hm] at h
        cases h
        have hall := mapRowsE_ok_forall₂ hm
        refine hall.imp ?_
        intro r r' hok
        obtain ⟨v, hv, hre⟩ := timeRowE_ok hok
        subst hre
        rw [cell_setRow_same]
        exact hv
    · intro ht
      rw [if_neg (ne_true_of_eq_false ht)] at h
      cases h
      intro r hr
      simp only [DataFrame.setColumn, List.mem_map] at hr
      obtain ⟨r0, hr0, hre⟩ := hr
      subst hre
      rw [cell_setRow_same]

/-- Witness for C10: a concrete fetch without a `time` field has the column
added, and the empty response keeps the `time` column. -/
theorem claim_C10_witness :
    ((json_normalize noTimeRecordsW).setColumn "time"
        (fun _ => Value.null)).columns.contains "time" = true ∧
    ∀ r ∈ ((json_normalize noTimeRecordsW).setColumn "time"
        (fun _ => Value.null)).rows, isDtOrNullB (Row.cell r "time") = true :=
  claim_C10.1 (.response 200 (.ok noTimeRecordsW))
    ((json_normalize noTimeRecordsW).setColumn "time" (fun _ => Value.null)) (by rfl)

end FPL
